import Mathlib

/-!
Verification development for the wxlive observable-polling core
(src/wxlive.py and src/updater.py): the `Variable` observable with its
listener fan-out, the `Getter`/`FullGetter`/`TimedGetter` family with its
bounded history buffer, and the `Base` widget registry.

Modelling conventions.
Values, replies and sampled rows are `Int`; listeners and widgets are
identified by `Nat` tokens.  The declared type of a `Variable` acts in
Python as a coercion function that may raise; it is modelled as a partial
function `Int → Option Int` (`none` = the coercion raises).  A user
supplied set function may return a reply or `None`; it is modelled as
`Int → Option Int`.  Wall-clock time is an `Int` supplied through the
environment.  `wx.PostEvent` failing for a stale listener is modelled by a
predicate `fails : Nat → Bool` telling which listeners raise on delivery.
Operations that can raise a Python exception return `PyRes`, whose
`raised` constructor carries the state of the object at the moment the
exception propagates (Python leaves partially mutated objects behind).
-/

/-- Kinds of Python exceptions the modelled code can raise:  `typeError`
stands for the error raised by a failed coercion `self.type(value)`, and
`attributeError` for a failed attribute lookup. -/
inductive PyErr where
  | typeError
  | attributeError
deriving DecidableEq, Repr

/-- Result of a modelled Python call: either a normal return carrying the
final state (and outputs), or a propagated exception carrying the state at
the moment of the raise. -/
inductive PyRes (σ : Type) where
  | ok (s : σ)
  | raised (e : PyErr) (s : σ)
deriving DecidableEq, Repr

/-- Python slice `a[k:]` for an integer `k`: for `0 ≤ k` it drops the
first `k` elements; for `k < 0` it starts at `max 0 (len + k)`, i.e. keeps
the last `-k` elements (`Nat` subtraction saturates, matching the clamp). -/
def pySliceFrom (k : Int) (a : List α) : List α :=
  if 0 ≤ k then a.drop k.toNat else a.drop (a.length - (-k).toNat)

/-- Python indexing `a[k]` for an integer `k`: nonnegative indexes from the
front, negative indexes from the back, out of range gives `none`
(IndexError). -/
def pyIndex (k : Int) (a : List α) : Option α :=
  if 0 ≤ k then a.get? k.toNat
  else if 0 ≤ (a.length : Int) + k then a.get? ((a.length : Int) + k).toNat
  else none

/-! ## Variable (wxlive.py) -/

/-- Mutable state of a `wxlive.Variable` (wxlive.py, `__init__`, lines
118-135): stored value `_value`, timestamp `_time`, last setter reply
`_reply` (each `None` until first written), the ordered listener registry
`_listeners`, the time offset `_time_offset`, and the polling-thread slot
`__thread` (`thread = true` models `__thread is not None`). -/
structure VarState where
  value : Option Int
  time : Option Int
  reply : Option Int
  listeners : List Nat
  timeOffset : Int
  thread : Bool
deriving DecidableEq, Repr

/-- Environment of a `Variable`: the coercion function `self.type`
(`none` = raises), the optional set function `fset` (returning an optional
reply), the optional get function `fget` (modelled by the raw value it
returns), the `reply_is_new_value` flag, the current wall-clock reading
`now` for `time()`, and the delivery-failure predicate for `wx.PostEvent`. -/
structure VarEnv where
  coerce : Int → Option Int
  fset : Option (Int → Option Int)
  fget : Option Int
  replyIsNewValue : Bool
  now : Int
  fails : Nat → Bool

/-- Python truthiness of the stored reply, as tested by
`if self._reply and self.__reply_is_new_value:`  (`None` and `0` are
falsy). -/
def replyTruthy : Option Int → Bool
  | some r => r != 0
  | none => false

/-- The reply produced by `self.fset(value)` when a set function is
configured, and `None` otherwise (wxlive.py, lines 227-230). -/
def applyFset (fset : Option (Int → Option Int)) (cv : Int) : Option Int :=
  match fset with
  | some f => f cv
  | none => none

/-- The loop of `Variable.notify_listeners` (wxlive.py, lines 392-400).
The Python `for w in self._listeners` keeps an integer cursor into the
list while the body mutates it: on a delivery failure (other than
`KeyboardInterrupt`/`SystemExit`) the body runs
`self._listeners.remove(w)`, which shifts every later element one
position left, so the element that followed the removed one is skipped.
The cursor is `i`; the first component of the result is the final
listener list, the second the listeners that were actually delivered to,
in delivery order.  `fuel` bounds the number of iterations: the cursor
grows by one per iteration and the list never grows, so starting with
`fuel = ws.length` (as `notifyListeners` does) the `fuel = 0` arm is
never the reason the loop stops. -/
def notifyStep (fails : Nat → Bool) (skip : Option Nat) :
    Nat → List Nat → Nat → List Nat × List Nat
  | 0, ws, _ => (ws, [])
  | fuel + 1, ws, i =>
    if i < ws.length then
      let w := ws.getD i 0
      if some w == skip then
        notifyStep fails skip fuel ws (i + 1)
      else if fails w then
        notifyStep fails skip fuel (ws.erase w) (i + 1)
      else
        let r := notifyStep fails skip fuel ws (i + 1)
        (r.1, w :: r.2)
    else (ws, [])

/-- `Variable.notify_listeners(skip_listener)` (wxlive.py, lines 388-400):
builds one event and posts it to every current listener except
`skip_listener`; a listener whose delivery raises is removed in place.
Returns the state with the final registry, paired with the delivery list. -/
def notifyListeners (fails : Nat → Bool) (skip : Option Nat) (s : VarState) :
    VarState × List Nat :=
  let r := notifyStep fails skip s.listeners.length s.listeners 0
  ({ s with listeners := r.1 }, r.2)

/-- `Variable.set_value(value, setter_object)` (wxlive.py, lines 207-236):
coerce the value (a failure raises with the state untouched), record the
timestamp, call the set function and store its reply, then either adopt
the (re-coerced) truthy reply as the new value — clearing `setter_object`
so the setter is informed too — or store the coerced input, and finally
notify the listeners, skipping `setter_object`.  (The `getD 0` only
unwraps the reply on the branch where truthiness already guarantees it is
`some`.) -/
def Variable.set_value (env : VarEnv) (v : Int) (setterObj : Option Nat)
    (s : VarState) : PyRes (VarState × List Nat) :=
  match env.coerce v with
  | none => .raised .typeError (s, [])
  | some cv =>
    let s2 : VarState :=
      { s with time := some (env.now - s.timeOffset), reply := applyFset env.fset cv }
    if replyTruthy (applyFset env.fset cv) && env.replyIsNewValue then
      match env.coerce ((applyFset env.fset cv).getD 0) with
      | none => .raised .typeError (s2, [])
      | some cr => .ok (notifyListeners env.fails none { s2 with value := some cr })
    else .ok (notifyListeners env.fails setterObj { s2 with value := some cv })

/-- `Variable.update()` (wxlive.py, lines 277-289): when a get function is
configured, sample it, coerce the result (a failure raises with the state
untouched), and store value and timestamp; then — in either case, the call
to `notify_listeners()` sits outside the `if self.fget is not None:`
block — notify every listener with no exclusion. -/
def Variable.update (env : VarEnv) (s : VarState) : PyRes (VarState × List Nat) :=
  match env.fget with
  | none => .ok (notifyListeners env.fails none s)
  | some g =>
    match env.coerce g with
    | none => .raised .typeError (s, [])
    | some cv =>
      .ok (notifyListeners env.fails none
        { s with time := some (env.now - s.timeOffset), value := some cv })

/-- `Variable.get_value(force)` (wxlive.py, lines 238-249): when polling is
inactive or `force` is set, run `update()` first; then return `self._value`.
The third output component is the returned value (`none` on a raise). -/
def Variable.get_value (env : VarEnv) (force : Bool) (s : VarState) :
    PyRes (VarState × List Nat × Option Int) :=
  if !s.thread || force then
    match Variable.update env s with
    | .raised e (s', ds) => .raised e (s', ds, none)
    | .ok (s', ds) => .ok (s', ds, s'.value)
  else .ok (s, [], s.value)

/-- Deliveries made by a `set_value`/`update` call, whether or not it
raised. -/
def deliveredOf : PyRes (VarState × List Nat) → List Nat
  | .ok (_, ds) => ds
  | .raised _ (_, ds) => ds

/-! ## Variable polling lifecycle (wxlive.py, lines 342-375) -/

/-- Threading fields of a `wxlive.Variable` together with a ghost counter
`alive` of polling threads that have been started and not yet joined:
`thread` models `__thread is not None`, `cont` models `__continue`. -/
structure VarSched where
  thread : Bool
  cont : Bool
  interval : Option Int
  alive : Nat
deriving DecidableEq, Repr

/-- `Variable.start(interval)` (wxlive.py, lines 342-356): everything —
including the interval assignment — sits inside
`if not self.is_active():`, so a call on an active `Variable` does
nothing at all. -/
def Variable.start (i : Option Int) (s : VarSched) : VarSched :=
  if s.thread then s
  else
    let s1 := match i with
      | some v => { s with interval := some v }
      | none => s
    { s1 with cont := true, thread := true, alive := s1.alive + 1 }

/-- `Variable.stop()` (wxlive.py, lines 358-367): when a thread is
running, clear `__continue`, join the thread (it exits, so `alive` drops
by one) and clear the slot. -/
def Variable.stop (s : VarSched) : VarSched :=
  if s.thread then { s with cont := false, thread := false, alive := s.alive - 1 }
  else s

/-- `Variable.is_active()` (wxlive.py, lines 369-375). -/
def Variable.is_active (s : VarSched) : Bool := s.thread

/-- A lifecycle call on a `Variable`. -/
inductive VarOp where
  | vstart (i : Option Int)
  | vstop
deriving DecidableEq, Repr

/-- Apply one lifecycle call. -/
def applyVarOp (s : VarSched) : VarOp → VarSched
  | .vstart i => Variable.start i s
  | .vstop => Variable.stop s

/-- A freshly constructed `Variable`: no thread, `__continue` false, no
interval, no polling thread alive. -/
def vFresh : VarSched := ⟨false, false, none, 0⟩

/-! ## Getter (updater.py) -/

/-- Threading fields of an `updater.Getter` with the same ghost counter
`alive` as `VarSched`: `thread` models `_thread != None`, `cont` models
`_continue` (set to `True` in `__init__`). -/
structure GetterSched where
  thread : Bool
  cont : Bool
  alive : Nat
deriving DecidableEq, Repr

/-- `Getter.start()` (updater.py, lines 144-152): a new thread is created
and started unconditionally — there is no is-active guard and no interval
parameter.  The previous thread, if any, keeps running (only the slot is
overwritten). -/
def Getter.start (s : GetterSched) : GetterSched :=
  { s with thread := true, alive := s.alive + 1 }

/-- `Getter.is_active()` (updater.py, lines 154-156). -/
def Getter.is_active (s : GetterSched) : Bool := s.thread

/-- Value-holding fields of an `updater.Getter`: `_value` (set by `_get`)
and the thread slot. -/
structure GetterState where
  value : Option Int
  thread : Bool
deriving DecidableEq, Repr

/-- Attribute names looked up on a `Getter` instance by the code under
study. -/
inductive GetterAttr where
  | is_active
  | is_acive
deriving DecidableEq, Repr

/-- Predicate-valued methods of class `Getter` (updater.py): `is_active`
is defined at line 154; no method or attribute named `is_acive` exists
anywhere in the class hierarchy, so looking it up yields nothing. -/
def getterAttrTable : GetterAttr → Option (GetterState → Bool)
  | .is_active => some (fun s => s.thread)
  | .is_acive => none

/-- `Getter.get_value()` (updater.py, lines 121-132): the body begins with
`if self.is_acive():` — a misspelling of `is_active` — so the attribute
lookup fails and every call raises `AttributeError` before either branch
can run.  `g` is the value `self._func()` would return on the inactive
branch. -/
def Getter.get_value (g : Int) (s : GetterState) : PyRes (GetterState × Option Int) :=
  match getterAttrTable .is_acive with
  | none => .raised .attributeError (s, none)
  | some act =>
    if act s then .ok (s, s.value)
    else
      let s' : GetterState := { s with value := some g }
      .ok (s', some g)

/-! ## FullGetter and TimedGetter (updater.py) -/

/-- State of an `updater.FullGetter` (and of a `TimedGetter`, which adds
`_t0`): the history rows `_data` (oldest first, one `Int` per sampled
row), the row cursor `_cur`, the capacity attribute `history`, the thread
slot, the `_value` field inherited from `Getter`, and the `TimedGetter`
time origin `_t0`. -/
structure FG where
  data : List Int
  cur : Nat
  history : Nat
  thread : Bool
  value : Option Int
  t0 : Option Int
deriving DecidableEq, Repr

/-- A freshly constructed `FullGetter` with capacity `h`: zero rows,
cursor 0 (updater.py, lines 189-191). -/
def fgInit (h : Nat) : FG := ⟨[], 0, h, false, none, none⟩

/-- `FullGetter._get()` (updater.py, lines 196-211), with the sampled row
abstracted to the single value `v` it concatenates to.  Below the cursor
limit the row is appended and the cursor advanced; otherwise the buffer is
replaced by `self._data[-self.history+1:]` plus the new row, and a cursor
that overran a shrunken `history` attribute is clamped.  The sampled row
is also returned. -/
def FullGetter._get (v : Int) (s : FG) : FG × Int :=
  if s.cur < s.history then
    ({ s with data := s.data ++ [v], cur := s.cur + 1 }, v)
  else
    ({ s with
        data := pySliceFrom (1 - (s.history : Int)) s.data ++ [v],
        cur := if s.history < s.cur then s.history else s.cur }, v)

/-- `FullGetter.get_value()` (updater.py, lines 221-225): when active,
return `self._data[self._cur - 1]` without sampling; otherwise run `_get`
— which inserts the sampled row into the history — and return the row. -/
def FullGetter.get_value (v : Int) (s : FG) : FG × Option Int :=
  if s.thread then (s, pyIndex ((s.cur : Int) - 1) s.data)
  else
    let r := FullGetter._get v s
    (r.1, some r.2)

/-- `FullGetter.get_values(size)` (updater.py, lines 232-236): under
`if size:` a nonzero size selects `self._data[-size:]`, i.e. the last
`size` rows; `size = 0` (like the default `None`) returns the whole
buffer. -/
def FullGetter.get_values (size : Nat) (s : FG) : List Int :=
  if size ≠ 0 then pySliceFrom (-(size : Int)) s.data else s.data

/-- `Getter.reset()` (updater.py, lines 165-167): stop polling and clear
`_value`. -/
def Getter.reset (s : FG) : FG := { s with thread := false, value := none }

/-- `FullGetter.reset()` (updater.py, lines 227-230): `Getter.reset` plus
clearing the history buffer and the cursor. -/
def FullGetter.reset (s : FG) : FG :=
  { Getter.reset s with data := [], cur := 0 }

/-- `TimedGetter.reset()` (updater.py, lines 267-269): the body calls
`super(FullGetter, self).reset()`, which resolves to `Getter.reset` —
`FullGetter.reset` is skipped, so `_data` and `_cur` are left as they
are — and then clears `_t0`. -/
def TimedGetter.reset (s : FG) : FG :=
  { Getter.reset s with t0 := none }

/-- Run a sequence of polling ticks (`_get` calls) on a fresh `FullGetter`
of capacity `h`, feeding the sampled rows `vs` in order. -/
def fgRun (h : Nat) (vs : List Int) : FG :=
  vs.foldl (fun s v => (FullGetter._get v s).1) (fgInit h)

/-! ## Base registry (updater.py) -/

/-- `Base.register(widget)` (updater.py, lines 25-33): append the widget
only when `self.count(widget) is 0`.  (`count` returns a small `Int`,
which CPython interns, so the identity test behaves as an equality test
with `0`.) -/
def Base.register (w : Nat) (l : List Nat) : List Nat :=
  if l.count w = 0 then l ++ [w] else l

/-! ## Concrete instances used by the claim checks -/

/-- Environment for the fan-out scenario: identity coercion, no set
function, a get function returning 42, clock at 100; delivery to listener
2 raises. -/
def env1 : VarEnv := ⟨some, none, some 42, false, 100, fun w => w == 2⟩

/-- A `Variable` with three listeners 1, 2, 3, inactive. -/
def s1 : VarState := ⟨some 0, some 0, none, [1, 2, 3], 0, false⟩

/-- Environment whose coercion always raises. -/
def env3 : VarEnv := ⟨fun _ => none, none, none, false, 0, fun _ => false⟩

/-- A `Variable` holding value 7 with one listener 4. -/
def s3 : VarState := ⟨some 7, some 1, none, [4], 0, false⟩

/-- Environment with no get function and no failing listeners. -/
def env4 : VarEnv := ⟨some, none, none, false, 0, fun _ => false⟩

/-- A `Variable` holding value 3 with one listener 7, inactive. -/
def s4 : VarState := ⟨some 3, some 2, none, [7], 0, false⟩

/-- Environment with a set function whose reply 1 is truthy and with
`reply_is_new_value` set. -/
def env8 : VarEnv := ⟨some, some (fun _ => some 1), none, true, 0, fun _ => false⟩

/-- The same environment with `reply_is_new_value` clear. -/
def env8b : VarEnv := ⟨some, some (fun _ => some 1), none, false, 0, fun _ => false⟩

/-- An uninitialised `Variable` with listeners 5 and 6. -/
def s8 : VarState := ⟨none, none, none, [5, 6], 0, false⟩

/-- A `TimedGetter` with two history rows, active, with a time origin. -/
def fg7 : FG := ⟨[1, 2], 2, 5, true, some 2, some 30⟩

/-! ## Fan-out lemmas -/

/-- One unfolding of the loop of `notify_listeners`. -/
lemma notifyStep_succ (fails : Nat → Bool) (skip : Option Nat) (fuel : Nat)
    (ws : List Nat) (i : Nat) :
    notifyStep fails skip (fuel + 1) ws i =
      if i < ws.length then
        if some (ws.getD i 0) == skip then notifyStep fails skip fuel ws (i + 1)
        else if fails (ws.getD i 0) then
          notifyStep fails skip fuel (ws.erase (ws.getD i 0)) (i + 1)
        else ((notifyStep fails skip fuel ws (i + 1)).1,
          ws.getD i 0 :: (notifyStep fails skip fuel ws (i + 1)).2)
      else (ws, []) := rfl

/-- When no listener in the current list fails delivery (so the loop of
`notify_listeners` never mutates the list), it delivers, in order, to
every listener from the cursor on except the skipped one. -/
lemma notifyStep_no_fail (fails : Nat → Bool) (skip : Option Nat) :
    ∀ (fuel : Nat) (ws : List Nat) (i : Nat),
      (∀ w ∈ ws, fails w = false) → ws.length ≤ fuel + i →
      notifyStep fails skip fuel ws i =
        (ws, (ws.drop i).filter (fun w => !(some w == skip))) := by
  intro fuel
  induction fuel with
  | zero =>
    intro ws i hf hlen
    have hdrop : ws.drop i = [] := List.drop_eq_nil_of_le (by omega)
    simp [notifyStep, hdrop]
  | succ fuel ih =>
    intro ws i hf hlen
    by_cases hi : i < ws.length
    · have hw : ws[i] ∈ ws := List.getElem_mem hi
      have hfw : fails ws[i] = false := hf _ hw
      have hdrop : ws.drop i = ws[i] :: ws.drop (i + 1) :=
        List.drop_eq_getElem_cons hi
      have hih := ih ws (i + 1) hf (by omega)
      have hgetD : ws.getD i 0 = ws[i] := List.getD_eq_getElem ws 0 hi
      rw [notifyStep_succ, if_pos hi, hgetD]
      by_cases hskip : some ws[i] = skip
      · rw [if_pos (by simp [hskip]), hih, hdrop, List.filter_cons]
        simp [hskip]
      · rw [if_neg (by simp [hskip]), if_neg (by simp [hfw]), hih, hdrop,
          List.filter_cons]
        simp [hskip]
    · have hdrop : ws.drop i = [] := List.drop_eq_nil_of_le (by omega)
      rw [notifyStep_succ, if_neg hi, hdrop]
      simp

/-- `notify_listeners` on a state none of whose listeners fails delivery:
the registry is unchanged and the delivery list is the registry minus the
skipped listener. -/
lemma notifyListeners_no_fail (fails : Nat → Bool) (skip : Option Nat)
    (s : VarState) (hf : ∀ w ∈ s.listeners, fails w = false) :
    notifyListeners fails skip s =
      (s, s.listeners.filter (fun w => !(some w == skip))) := by
  unfold notifyListeners
  rw [notifyStep_no_fail fails skip s.listeners.length s.listeners 0 hf (by omega)]
  rfl

/-- With no listener skipped, the filter in `notifyListeners_no_fail` keeps
everything. -/
lemma filter_skip_none (l : List Nat) :
    (l.filter (fun w => !(some w == (none : Option Nat)))) = l := by
  apply List.filter_eq_self.mpr
  intro a _
  rfl

/-- `notify_listeners` with no skipped listener and no failing listener
delivers to the whole registry and leaves the state unchanged. -/
lemma notifyListeners_none_no_fail (fails : Nat → Bool) (s : VarState)
    (hf : ∀ w ∈ s.listeners, fails w = false) :
    notifyListeners fails none s = (s, s.listeners) := by
  rw [notifyListeners_no_fail fails none s hf, filter_skip_none]

/-! ## Claim C1 -/

/-- C1: with three registered listeners 1, 2, 3 where delivery to
listener 2 raises, a single `update()` does remove listener 2 from the
registry, but it delivers the notification only to listener 1: removing
the failing listener from the list being iterated shifts listener 3 into
the consumed position, so listener 3 receives nothing in that fan-out.
Only a subsequent `update()` delivers to both 1 and 3.  This contradicts
the claim that every other registered listener — in particular the one
registered after the failing one — receives exactly one notification in
that same fan-out. -/
theorem c1_fanout_skips_listener_after_failed :
    Variable.update env1 s1 =
      .ok (⟨some 42, some 100, none, [1, 3], 0, false⟩, [1])
    ∧ Variable.update env1 ⟨some 42, some 100, none, [1, 3], 0, false⟩ =
      .ok (⟨some 42, some 100, none, [1, 3], 0, false⟩, [1, 3]) := by
  decide

/-! ## Claim C3 -/

/-- C3: when coercion of the input value fails, `set_value` raises with
the stored value, timestamp and reply exactly as they were (the coercion
is the first statement of the method body) and delivers no notification
to any listener. -/
theorem c3_set_value_coercion_failure (env : VarEnv) (v : Int)
    (so : Option Nat) (s : VarState) (h : env.coerce v = none) :
    Variable.set_value env v so s = .raised .typeError (s, []) := by
  unfold Variable.set_value
  rw [h]

/-- Witness for `c3_set_value_coercion_failure` at a coercion that always
fails, on a `Variable` holding 7 with one listener. -/
theorem c3_witness :
    Variable.set_value env3 5 none s3 = .raised .typeError (s3, []) :=
  c3_set_value_coercion_failure env3 5 none s3 rfl

/-! ## Claim C4 -/

/-- C4, counterexample: on a `Variable` with no get function and one
listener 7, `update()` leaves the state untouched but still delivers a
notification to listener 7 — the call to `notify_listeners()` sits
outside the `if self.fget is not None:` block — whereas the claim says no
notification is delivered. -/
theorem c4_counterexample :
    Variable.update env4 s4 = .ok (s4, [7])
    ∧ deliveredOf (Variable.update env4 s4) ≠ [] := by
  decide

/-- C4, amended: with no failing listeners, `update()` on a `Variable`
with no get function leaves value and timestamp (indeed the whole state)
unchanged but still notifies every listener; with a get function whose
result coerces to `cv`, it stores `cv` and the fresh timestamp and
notifies every listener with no exclusion. -/
theorem c4_update_notifies_even_without_fget (env : VarEnv) (s : VarState)
    (hf : ∀ w ∈ s.listeners, env.fails w = false) :
    (env.fget = none → Variable.update env s = .ok (s, s.listeners))
    ∧ (∀ g cv, env.fget = some g → env.coerce g = some cv →
        Variable.update env s =
          .ok ({ s with value := some cv, time := some (env.now - s.timeOffset) },
            s.listeners)) := by
  constructor
  · intro hg
    unfold Variable.update
    rw [hg, notifyListeners_none_no_fail env.fails s hf]
  · intro g cv hg hc
    simp only [Variable.update, hg, hc]
    rw [notifyListeners_none_no_fail env.fails
      { s with time := some (env.now - s.timeOffset), value := some cv } hf]

/-- Witness for `c4_update_notifies_even_without_fget`: the no-get-function
half at the concrete instance of the counterexample. -/
theorem c4_witness : Variable.update env4 s4 = .ok (s4, [7]) :=
  (c4_update_notifies_even_without_fget env4 s4 (by decide)).1 rfl

/-! ## Claim C8 -/

/-- C8, counterexample: on a `Variable` with `reply_is_new_value` set and
a set function returning the truthy reply 1, `set_value(42,
setter_object = 5)` clears the initiator exclusion
(`setter_object = None` in the source) and delivers to listener 5 as
well, whereas the claim says the initiator listener never receives a
notification from that call. -/
theorem c8_counterexample :
    deliveredOf (Variable.set_value env8 42 (some 5) s8) = [5, 6]
    ∧ 5 ∈ deliveredOf (Variable.set_value env8 42 (some 5) s8) := by
  decide

/-- C8, amended: provided the coercion succeeds, the reply-adoption branch
is not taken (`reply_is_new_value` clear, or the reply falsy) and no
listener fails delivery, `set_value(v, setter_object = L)` delivers to
exactly the registered listeners other than `L`, in registration order,
and `L` receives nothing. -/
theorem c8_initiator_exclusion (env : VarEnv) (s : VarState) (v cv : Int)
    (L : Nat) (hc : env.coerce v = some cv)
    (hr : (replyTruthy (applyFset env.fset cv) && env.replyIsNewValue) = false)
    (hf : ∀ w ∈ s.listeners, env.fails w = false) :
    Variable.set_value env v (some L) s =
      .ok
        ({ s with
            time := some (env.now - s.timeOffset),
            reply := applyFset env.fset cv,
            value := some cv },
          s.listeners.filter (fun w => !(w == L)))
    ∧ L ∉ s.listeners.filter (fun w => !(w == L))
    ∧ ∀ w ∈ s.listeners, w ≠ L → w ∈ s.listeners.filter (fun w => !(w == L)) := by
  refine ⟨?_, by simp, by intro w hw hne; simp [hw, hne]⟩
  simp only [Variable.set_value, hc, hr, Bool.false_eq_true, if_false]
  rw [notifyListeners_no_fail env.fails (some L)
    { s with time := some (env.now - s.timeOffset),
             reply := applyFset env.fset cv, value := some cv } hf]
  rfl

/-- Witness for `c8_initiator_exclusion`: same scenario as the
counterexample but with `reply_is_new_value` clear — listener 5, the
initiator, is excluded and only listener 6 is notified. -/
theorem c8_witness :
    Variable.set_value env8b 42 (some 5) s8 =
      .ok (⟨some 42, some 0, some 1, [5, 6], 0, false⟩, [6]) := by
  have h := (c8_initiator_exclusion env8b s8 42 42 5 rfl rfl (by decide)).1
  exact h.trans (by decide)

/-! ## Claim C2 -/

/-- A lifecycle call on a `Variable` keeps the thread-accounting invariant:
exactly one polling thread is alive while the slot is occupied, none
otherwise. -/
lemma applyVarOp_alive (s : VarSched) (op : VarOp)
    (h : s.alive = if s.thread then 1 else 0) :
    (applyVarOp s op).alive = if (applyVarOp s op).thread then 1 else 0 := by
  cases op with
  | vstart i =>
    by_cases ht : s.thread
    · simp [applyVarOp, Variable.start, ht, h]
    · cases i <;> simp [applyVarOp, Variable.start, ht, h]
  | vstop =>
    by_cases ht : s.thread <;> simp [applyVarOp, Variable.stop, ht, h]

/-- The thread-accounting invariant holds after any sequence of lifecycle
calls. -/
lemma foldl_applyVarOp_alive (ops : List VarOp) :
    ∀ s : VarSched, s.alive = (if s.thread then 1 else 0) →
      (ops.foldl applyVarOp s).alive =
        if (ops.foldl applyVarOp s).thread then 1 else 0 := by
  induction ops with
  | nil => intro s h; exact h
  | cons op ops ih =>
    intro s h
    exact ih (applyVarOp s op) (applyVarOp_alive s op h)

/-- C2, counterexample: `Getter.start` has no is-active guard, so on an
already active `Getter` it starts a second concurrent polling thread
(two threads alive after two `start()` calls on a fresh `Getter`); and
`Variable.start(5)` on an active `Variable` does not update the interval
either, because the interval assignment sits inside the
`if not self.is_active():` block.  Both halves contradict the claim that
`start()` while active never spawns a second task and only updates the
interval. -/
theorem c2_counterexample :
    Getter.is_active (Getter.start ⟨false, true, 0⟩) = true
    ∧ (Getter.start (Getter.start ⟨false, true, 0⟩)).alive = 2
    ∧ Variable.is_active ⟨true, true, some 1, 1⟩ = true
    ∧ (Variable.start (some 5) ⟨true, true, some 1, 1⟩).interval = some 1 := by
  decide

/-- C2, amended: `Variable.start` on an active `Variable` is a complete
no-op (in particular it never spawns a second polling thread, but it does
not update the interval either); after any sequence of `start`/`stop`
calls on a fresh `Variable` at most one polling thread is alive; and
`Getter.start` unconditionally spawns a new polling thread, even while
one is already active. -/
theorem c2_start_while_active :
    (∀ (s : VarSched) (i : Option Int), s.thread = true → Variable.start i s = s)
    ∧ (∀ ops : List VarOp, (ops.foldl applyVarOp vFresh).alive ≤ 1)
    ∧ (∀ g : GetterSched,
        Getter.start g = { g with thread := true, alive := g.alive + 1 }) := by
  refine ⟨?_, ?_, fun g => rfl⟩
  · intro s i h
    simp [Variable.start, h]
  · intro ops
    have h := foldl_applyVarOp_alive ops vFresh rfl
    by_cases ht : (ops.foldl applyVarOp vFresh).thread <;> simp [ht] at h <;> omega

/-- Witness for `c2_start_while_active`: a `start` with a new interval on
an active `Variable` changes nothing. -/
theorem c2_witness :
    Variable.start (some 9) ⟨true, true, some 1, 1⟩ = ⟨true, true, some 1, 1⟩ :=
  c2_start_while_active.1 ⟨true, true, some 1, 1⟩ (some 9) rfl

/-! ## Claim C5 -/

/-- C5: `Getter.get_value` never returns a value at all — active or not,
it raises `AttributeError`, because its first statement looks up
`self.is_acive()`, a misspelling of `is_active` that exists nowhere in
the class hierarchy.  This contradicts the claim (and the docstring of
the method itself) that an active `Getter` returns the cached value and
an inactive one performs a fresh get. -/
theorem c5_getter_get_value_raises (g : Int) (s : GetterState) :
    Getter.get_value g s = .raised .attributeError (s, none) := rfl

/-! ## Claim C7 -/

/-- C7: `TimedGetter.reset` stops polling, clears `_value` and resets the
time origin `_t0`, but leaves the history buffer `_data` and the cursor
`_cur` untouched: its body calls `super(FullGetter, self).reset()`, which
resolves to `Getter.reset` and skips the buffer-clearing
`FullGetter.reset` (which, by contrast, does empty the buffer).  This
contradicts the claim that `reset()` clears the history buffer to zero
rows for the timestamped variant. -/
theorem c7_timed_reset_keeps_buffer (s : FG) :
    TimedGetter.reset s = { s with thread := false, value := none, t0 := none }
    ∧ (TimedGetter.reset fg7).data = [1, 2]
    ∧ (FullGetter.reset fg7).data = [] :=
  ⟨rfl, rfl, rfl⟩

/-! ## Claim C6 -/

/-- A Python slice `a[-k:]` with `k > 0` keeps the last `k` elements. -/
lemma pySliceFrom_neg (k : Nat) (hk : 0 < k) (a : List α) :
    pySliceFrom (-(k : Int)) a = a.drop (a.length - k) := by
  unfold pySliceFrom
  rw [if_neg (by omega)]
  congr 1
  omega

/-- Running one more tick commutes with `foldl`. -/
lemma fgRun_append (h : Nat) (vs : List Int) (v : Int) :
    fgRun h (vs ++ [v]) = (FullGetter._get v (fgRun h vs)).1 := by
  simp [fgRun, List.foldl_append]

/-- For a capacity of at least 2, after any sequence of ticks the history
buffer of a fresh `FullGetter` holds exactly the last `history` sampled
rows in sampling order, and the cursor tracks the buffer length. -/
lemma fgRun_spec (h : Nat) (hh : 2 ≤ h) (vs : List Int) :
    (fgRun h vs).data = vs.drop (vs.length - h)
    ∧ (fgRun h vs).cur = min vs.length h
    ∧ (fgRun h vs).history = h := by
  induction vs using List.reverseRecOn with
  | nil => simp [fgRun, fgInit]
  | append_singleton vs v ih =>
    obtain ⟨hd, hc, hhist⟩ := ih
    rw [fgRun_append]
    by_cases hlt : vs.length < h
    · have hcur : (fgRun h vs).cur < (fgRun h vs).history := by
        rw [hc, hhist]; omega
      have hdata : (fgRun h vs).data = vs := by
        rw [hd, show vs.length - h = 0 by omega, List.drop_zero]
      simp only [FullGetter._get, if_pos hcur]
      refine ⟨?_, ?_, by simpa using hhist⟩
      · simp only [hdata]
        rw [show (vs ++ [v]).length - h = 0 by simp; omega, List.drop_zero]
      · simp only [hc, hhist]
        simp
        omega
    · have hcur : ¬ (fgRun h vs).cur < (fgRun h vs).history := by
        rw [hc, hhist]; omega
      have hlen : (fgRun h vs).data.length = h := by
        rw [hd]
        simp
        omega
      simp only [FullGetter._get, if_neg hcur]
      have hslice : pySliceFrom (1 - ((fgRun h vs).history : Int)) (fgRun h vs).data
          = (fgRun h vs).data.drop 1 := by
        rw [hhist, show (1 - (h : Int)) = -((h - 1 : Nat) : Int) by omega,
          pySliceFrom_neg (h - 1) (by omega), hlen,
          show h - (h - 1) = 1 by omega]
      refine ⟨?_, ?_, by simpa using hhist⟩
      · rw [hslice, hd, List.drop_drop]
        rw [List.drop_append_eq_append_drop]
        rw [show (vs ++ [v]).length - h = 1 + (vs.length - h) by simp; omega]
        rw [show 1 + (vs.length - h) - vs.length = 0 by omega, List.drop_zero,
          show 1 + (vs.length - h) = vs.length - h + 1 by omega]
      · rw [hc, hhist]
        have : ¬ h < min vs.length h := by omega
        simp only [this, if_false]
        simp
        omega

/-- C6, counterexample: with capacity 1 the eviction slice
`self._data[-self.history+1:]` is `self._data[0:]`, the whole buffer, so
after the second sample the buffer holds 2 rows — the row count exceeds
the configured capacity, contradicting the claim for capacity 1. -/
theorem c6_counterexample :
    (fgRun 1 [10, 20]).data = [10, 20]
    ∧ ¬ (fgRun 1 [10, 20]).data.length ≤ 1 := by
  decide

/-- C6, amended: for every configured capacity `h ≥ 2`, after any sequence
of samples the buffer row count never exceeds `h`; the buffer holds
exactly the last `h` sampled rows in sampling order (so at capacity each
new sample evicts the oldest row); and `get_values(size)` with
`0 < size ≤ h` returns exactly the last `size` sampled rows.  (For
`h = 1` the buffer grows without bound, see the counterexample.) -/
theorem c6_ring_buffer (h : Nat) (hh : 2 ≤ h) (vs : List Int) :
    (fgRun h vs).data = vs.drop (vs.length - h)
    ∧ (fgRun h vs).data.length ≤ h
    ∧ ∀ size : Nat, 0 < size → size ≤ h →
        FullGetter.get_values size (fgRun h vs) = vs.drop (vs.length - size) := by
  obtain ⟨hd, hc, hhist⟩ := fgRun_spec h hh vs
  refine ⟨hd, ?_, ?_⟩
  · rw [hd]
    simp
    omega
  · intro size h0 hsz
    unfold FullGetter.get_values
    rw [if_pos (by omega : size ≠ 0), pySliceFrom_neg size h0, hd, List.length_drop,
      List.drop_drop]
    congr 1
    omega

/-- Witness for `c6_ring_buffer`: the scenario of the specification —
capacity 3, five samples — retains exactly the last 3 rows and
`get_values(2)` returns the last 2 of those. -/
theorem c6_witness :
    (fgRun 3 [1, 2, 3, 4, 5]).data = [3, 4, 5]
    ∧ FullGetter.get_values 2 (fgRun 3 [1, 2, 3, 4, 5]) = [4, 5] := by
  have h := c6_ring_buffer 3 (by decide) [1, 2, 3, 4, 5]
  exact ⟨h.1.trans (by decide), (h.2.2 2 (by decide) (by decide)).trans (by decide)⟩

/-! ## Claim C9 -/

/-- C9, counterexample: on an inactive fresh `FullGetter` of capacity 10,
`get_value()` samples via `_get`, which inserts the sampled row into the
history buffer — the buffer goes from empty to one row, contradicting the
claim that the buffer contents are unchanged by the inactive-path call. -/
theorem c9_counterexample :
    (FullGetter.get_value 7 (fgInit 10)).1.data = [7]
    ∧ (FullGetter.get_value 7 (fgInit 10)).1.data ≠ (fgInit 10).data := by
  decide

/-- C9, amended: on an inactive batched getter below capacity,
`get_value()` samples the channels once, returns the resulting row, and
appends that row to the history buffer (the same ring insertion a polling
tick performs) — it does not leave the buffer unchanged. -/
theorem c9_inactive_get_value_appends (s : FG) (v : Int)
    (hth : s.thread = false) (hcap : s.cur < s.history) :
    (FullGetter.get_value v s).1.data = s.data ++ [v]
    ∧ (FullGetter.get_value v s).2 = some v := by
  unfold FullGetter.get_value
  rw [hth]
  simp [FullGetter._get, hcap]

/-- Witness for `c9_inactive_get_value_appends` on a fresh inactive
`FullGetter` of capacity 10. -/
theorem c9_witness :
    (FullGetter.get_value 7 (fgInit 10)).1.data = [] ++ [7]
    ∧ (FullGetter.get_value 7 (fgInit 10)).2 = some 7 :=
  c9_inactive_get_value_appends (fgInit 10) 7 rfl (by decide)

/-! ## Claim C10 -/

/-- Registering a fresh widget keeps the registry duplicate-free. -/
lemma register_nodup (w : Nat) (l : List Nat) (h : l.Nodup) :
    (Base.register w l).Nodup := by
  unfold Base.register
  by_cases hc : l.count w = 0
  · rw [if_pos hc]
    have hw : w ∉ l := by
      intro hmem
      have := List.count_pos_iff.mpr hmem
      omega
    simp [List.nodup_append, h, hw]
  · rw [if_neg hc]
    exact h

/-- Any sequence of `register` calls starting from a duplicate-free
registry keeps it duplicate-free. -/
lemma foldl_register_nodup (ws : List Nat) :
    ∀ acc : List Nat, acc.Nodup →
      (ws.foldl (fun acc w => Base.register w acc) acc).Nodup := by
  induction ws with
  | nil => intro acc h; exact h
  | cons w ws ih =>
    intro acc h
    exact ih (Base.register w acc) (register_nodup w acc h)

/-- C10: `Base.register` is idempotent — a widget already present leaves
the registry unchanged, registering twice equals registering once, and
starting from the empty registry no sequence of `register` calls ever
produces a duplicate entry. -/
theorem c10_register_idempotent :
    (∀ (w : Nat) (l : List Nat), w ∈ l → Base.register w l = l)
    ∧ (∀ (w : Nat) (l : List Nat),
        Base.register w (Base.register w l) = Base.register w l)
    ∧ (∀ ws : List Nat,
        (ws.foldl (fun acc w => Base.register w acc) []).Nodup) := by
  refine ⟨?_, ?_, fun ws => foldl_register_nodup ws [] List.nodup_nil⟩
  · intro w l hmem
    unfold Base.register
    rw [if_neg]
    have := List.count_pos_iff.mpr hmem
    omega
  · intro w l
    unfold Base.register
    by_cases hc : l.count w = 0
    · rw [if_pos hc]
      rw [if_neg]
      simp [List.count_append]
    · rw [if_neg hc, if_neg hc]

/-- Witness for `c10_register_idempotent`: registering the already present
widget 2 leaves the registry unchanged. -/
theorem c10_witness : Base.register 2 [1, 2] = [1, 2] :=
  c10_register_idempotent.1 2 [1, 2] (by decide)
